import Mathlib

/-!
Verification of the Yahoo-Finance "Most Active" scraper (src/main.py).

The scraper drives a browser; we embed its control logic as pure Lean
functions over explicit environment descriptions.  A table snapshot is a
`List (List String)`: the body rows of the rendered table, each row being
the list of its cells' text contents.  Browser faults (timeouts, stale
element references, other exceptions) are environment data.
-/

set_option autoImplicit false

/-- One scraped row (the `stock_data` dict of `scrape_current_page`).
It has exactly these seven string fields and no others; values are raw
trimmed text, no numeric coercion. -/
structure RawRow where
  symbol : String
  name : String
  price : String
  change : String
  volume : String
  market_cap : String
  pe_ratio : String
deriving DecidableEq, Repr

/-- Python `str.strip()` on the character list: drop whitespace from the
front, then from the back. -/
def stripChars (l : List Char) : List Char :=
  (((l.dropWhile Char.isWhitespace).reverse.dropWhile Char.isWhitespace).reverse)

/-- Python `str.strip()` with no argument: remove leading and trailing
whitespace. -/
def pyStrip (s : String) : String :=
  String.mk (stripChars s.data)

/-- The `stock_data` record built from one table row (`cols` is the list
of `td` texts): trimmed text at fixed indices 0,1,3,4,6,8,9.  Out-of-range
reads default to `""`; `scrape_current_page` only builds this for rows of
length at least 10, so the defaults are never used there. -/
def stockData (cols : List String) : RawRow :=
  { symbol := pyStrip (cols.getD 0 "")
    name := pyStrip (cols.getD 1 "")
    price := pyStrip (cols.getD 3 "")
    change := pyStrip (cols.getD 4 "")
    volume := pyStrip (cols.getD 6 "")
    market_cap := pyStrip (cols.getD 8 "")
    pe_ratio := pyStrip (cols.getD 9 "") }

/-- The row loop of `scrape_current_page` (main.py lines 154-168):
`data = []`, then for each row, skip it when it has fewer than 10 cells,
otherwise append `stockData row` to `data`. -/
def scrapeLoop : List (List String) → List RawRow → List RawRow
  | [], data => data
  | row :: rest, data =>
    if row.length < 10 then scrapeLoop rest data
    else scrapeLoop rest (data ++ [stockData row])

/-- `scrape_current_page` on a successfully read table snapshot (the
happy path, no stale element raised while iterating the rows). -/
def scrape_current_page (rows : List (List String)) : List RawRow :=
  scrapeLoop rows []

lemma scrapeLoop_eq_append (rows : List (List String)) :
    ∀ data : List RawRow,
      scrapeLoop rows data =
        data ++ (rows.filter (fun r => decide (10 ≤ r.length))).map stockData := by
  induction rows with
  | nil => intro data; simp [scrapeLoop]
  | cons row rest ih =>
    intro data
    by_cases h : row.length < 10
    · have hnot : ¬ (10 ≤ row.length) := by omega
      simp [scrapeLoop, h, ih, hnot]
    · have hle : 10 ≤ row.length := by omega
      simp [scrapeLoop, h, ih, hle]

/-- C1: page extraction emits a `RawRow` for exactly the body rows having
at least ten cells, skips every shorter row, and preserves the original
order of the emitted rows: the output is the ≥10-cell rows, in order,
each mapped through `stockData`. -/
theorem scrape_skips_short_rows_preserves_order (rows : List (List String)) :
    scrape_current_page rows =
      (rows.filter (fun r => decide (10 ≤ r.length))).map stockData := by
  simpa [scrape_current_page] using scrapeLoop_eq_append rows []

/-- C2: for a table row with at least ten cells, the emitted `RawRow`
carries the trimmed text of cells 0,1,3,4,6,8,9 as symbol, name, price,
change, volume, market_cap, pe_ratio; `RawRow` has no other fields and
the values are strings taken verbatim (trimmed), with no coercion. -/
theorem scrape_row_field_mapping (cols : List String) (h : 10 ≤ cols.length) :
    scrape_current_page [cols] =
      [{ symbol := pyStrip (cols.get ⟨0, by omega⟩)
         name := pyStrip (cols.get ⟨1, by omega⟩)
         price := pyStrip (cols.get ⟨3, by omega⟩)
         change := pyStrip (cols.get ⟨4, by omega⟩)
         volume := pyStrip (cols.get ⟨6, by omega⟩)
         market_cap := pyStrip (cols.get ⟨8, by omega⟩)
         pe_ratio := pyStrip (cols.get ⟨9, by omega⟩) }] := by
  have hn : ¬ (cols.length < 10) := by omega
  have h0 : (0 : Nat) < cols.length := by omega
  have h1 : (1 : Nat) < cols.length := by omega
  have h3 : (3 : Nat) < cols.length := by omega
  have h4 : (4 : Nat) < cols.length := by omega
  have h6 : (6 : Nat) < cols.length := by omega
  have h8 : (8 : Nat) < cols.length := by omega
  have h9 : (9 : Nat) < cols.length := by omega
  simp only [scrape_current_page, scrapeLoop, hn, if_false]
  simp [stockData, List.getD_eq_getElem?_getD, List.getElem?_eq_getElem,
    h0, h1, h3, h4, h6, h8, h9]

/-- A concrete ten-cell table row used by witnesses. -/
def exCols : List String :=
  ["AAPL", " Apple Inc. ", "x", "255.45", "+1.02", "y", "45.3M", "z", "3.78T", "39.1"]

/-- Witness for C2 at a concrete ten-cell row. -/
theorem scrape_row_field_mapping_witness :
    10 ≤ exCols.length ∧
      scrape_current_page [exCols] =
        [{ symbol := "AAPL", name := "Apple Inc.", price := "255.45",
           change := "+1.02", volume := "45.3M", market_cap := "3.78T",
           pe_ratio := "39.1" }] :=
  ⟨by decide, (scrape_row_field_mapping exCols (by decide)).trans (by decide)⟩

/-- One round of `scrape_current_page`'s body as the environment resolves
it: either the table read raises `StaleElementReferenceException` mid-loop
(`stale`), or the snapshot `rows` is read successfully (`page rows`). -/
inductive ScrapeAttempt where
  | stale : ScrapeAttempt
  | page (rows : List (List String)) : ScrapeAttempt

/-- The stale-retry structure of `scrape_current_page` (main.py lines
170-173): on `StaleElementReferenceException` it sleeps and re-invokes
itself, with NO retry cap.  `attempts k` is the environment's outcome of
the k-th attempt.  The `fuel` argument only bounds our observation of the
recursion: `none` means the source is still retrying after `fuel`
attempts (the source itself has no such bound). -/
def scrapeWithRetries : (Nat → ScrapeAttempt) → Nat → Option (List RawRow)
  | _, 0 => none
  | attempts, n + 1 =>
    match attempts 0 with
    | ScrapeAttempt.page rows => some (scrape_current_page rows)
    | ScrapeAttempt.stale => scrapeWithRetries (fun k => attempts (k + 1)) n

/-- C3 (code_bug evidence): if every attempt raises a stale-element
error, `scrape_current_page` keeps retrying forever: no number of
attempts yields a result.  The source caps nothing and defines no
`ExtractionFailed` error, contradicting the claim's bounded retry cap. -/
theorem scrape_retry_unbounded_on_persistent_stale :
    ∀ n : Nat, scrapeWithRetries (fun _ => ScrapeAttempt.stale) n = none := by
  intro n
  induction n with
  | zero => rfl
  | succ m ih => simpa [scrapeWithRetries] using ih

/-- Boolean prefix test on character lists. -/
def listIsPrefix : List Char → List Char → Bool
  | [], _ => true
  | _ :: _, [] => false
  | a :: as, b :: bs => a == b && listIsPrefix as bs

/-- Boolean substring test on character lists. -/
def listContainsSub (needle : List Char) : List Char → Bool
  | [] => needle.isEmpty
  | b :: t => listIsPrefix needle (b :: t) || listContainsSub needle t

/-- Python's `needle in hay` on strings: substring containment. -/
def strContains (needle hay : String) : Bool :=
  listContainsSub needle.data hay.data

/-- Exception kinds that can reach `go_to_next_page`'s handlers:
`TimeoutException`, `StaleElementReferenceException`, and any other
`Exception` (e.g. the `TypeError` from `"disabled" in None`). -/
inductive Exc where
  | timeout : Exc
  | stale : Exc
  | other : Exc
deriving DecidableEq, Repr

/-- Environment of one `go_to_next_page` call (main.py lines 184-207):
the outcome of each browser interaction the body performs, in order.
`firstRowFetch` is reading `first_rows[0].text` (`none` when the table
has no rows, so `first_row_check = None`); `btnWait` is
`_wait_clickable(NEXT_BUTTON)`, whose timeout models an absent or
never-clickable control; `classAttr` is `btn.get_attribute("class")`
(Python may return `None`); `clickRes` is the scroll-and-JS-click;
`changed` says whether `_has_table_changed` becomes true within the
10-second wait. -/
structure NextPageEnv where
  firstRowFetch : Except Exc (Option String)
  btnWait : Except Exc Unit
  classAttr : Except Exc (Option String)
  clickRes : Except Exc Unit
  changed : Bool

/-- The `try` body of `go_to_next_page`: exceptions propagate as
`Except.error`.  `"disabled" in None` raises a `TypeError` (an ordinary
`Exception`); an unchanged table raises `TimeoutException` from the
10-second `WebDriverWait`; the change wait runs only when
`first_row_check` is truthy, i.e. a non-empty string. -/
def goBody (env : NextPageEnv) : Except Exc Bool :=
  match env.firstRowFetch with
  | Except.error e => Except.error e
  | Except.ok fr =>
    match env.btnWait with
    | Except.error e => Except.error e
    | Except.ok _ =>
      match env.classAttr with
      | Except.error e => Except.error e
      | Except.ok none => Except.error Exc.other
      | Except.ok (some c) =>
        if strContains "disabled" c then Except.ok false
        else
          match env.clickRes with
          | Except.error e => Except.error e
          | Except.ok _ =>
            match fr with
            | some t =>
              if t = "" then Except.ok true
              else if env.changed then Except.ok true
              else Except.error Exc.timeout
            | none => Except.ok true

/-- `go_to_next_page`: the body wrapped in `except TimeoutException:
return False` and `except Exception: return False` — every exception kind
is caught and turned into `false`, so the function always returns a
boolean. -/
def go_to_next_page (env : NextPageEnv) : Bool :=
  match goBody env with
  | Except.ok b => b
  | Except.error _ => false

/-- C4 amended: with the other interactions succeeding, `go_to_next_page`
returns `false` exactly when obtaining a clickable next control fails
(absent, never clickable, or any wait error), the control class contains
the substring "disabled", or a NON-EMPTY first-row fingerprint was
captured and the first row's text did not change within the timeout.  An
empty first-row text is falsy in Python (`if first_row_check:`), so the
change wait is skipped and the click alone yields `true`. -/
theorem go_to_next_page_exhaustion_iff (fr : Option String) (bw : Except Exc Unit)
    (c : String) (chg : Bool) :
    go_to_next_page ⟨Except.ok fr, bw, Except.ok (some c), Except.ok (), chg⟩ = false ↔
      ((∃ e, bw = Except.error e) ∨ strContains "disabled" c = true ∨
        (∃ t, fr = some t ∧ t ≠ "" ∧ chg = false)) := by
  cases bw with
  | error e =>
    constructor
    · intro _
      exact Or.inl ⟨e, rfl⟩
    · intro _
      rfl
  | ok u =>
    cases u
    cases hc : strContains "disabled" c with
    | true =>
      constructor
      · intro _
        exact Or.inr (Or.inl rfl)
      · intro _
        simp [go_to_next_page, goBody, hc]
    | false =>
      cases fr with
      | none =>
        constructor
        · intro hgo
          simp [go_to_next_page, goBody, hc] at hgo
        · rintro (⟨e, he⟩ | hcc | ⟨t, ht2, hne, hch⟩)
          · cases he
          · exact Bool.noConfusion hcc
          · cases ht2
      | some t =>
        by_cases ht : t = ""
        · subst ht
          constructor
          · intro hgo
            simp [go_to_next_page, goBody, hc] at hgo
          · rintro (⟨e, he⟩ | hcc | ⟨t2, ht2, hne, hch⟩)
            · cases he
            · exact Bool.noConfusion hcc
            · cases ht2; exact absurd rfl hne
        · cases hch : chg with
          | true =>
            constructor
            · intro hgo
              simp [go_to_next_page, goBody, hc, ht] at hgo
            · rintro (⟨e, he⟩ | hcc | ⟨t2, ht2, hne, hchf⟩)
              · cases he
              · exact Bool.noConfusion hcc
              · exact Bool.noConfusion hchf
          | false =>
            constructor
            · intro _
              exact Or.inr (Or.inr ⟨t, rfl, ht, rfl⟩)
            · intro _
              simp [go_to_next_page, goBody, hc, ht]

/-- The environment of the C4 counterexample: the table's first row is
present but its text is the empty string, the next control is clickable
and enabled, the click succeeds, and the table does NOT change within the
timeout. -/
def exNoChangeEnv : NextPageEnv :=
  ⟨Except.ok (some ""), Except.ok (), Except.ok (some "pagination-btn"), Except.ok (), false⟩

/-- C4 counterexample: a fingerprint was captured (the first row exists,
with text `""`), the click succeeded, the first row's text never changed
— yet `go_to_next_page` returns `true`, where the claim requires `false`
(change-wait timeout treated as exhaustion). -/
theorem go_to_next_page_claim_counterexample :
    (∃ t, exNoChangeEnv.firstRowFetch = Except.ok (some t)) ∧
      exNoChangeEnv.clickRes = Except.ok () ∧
      exNoChangeEnv.changed = false ∧
      go_to_next_page exNoChangeEnv = true :=
  ⟨⟨"", rfl⟩, rfl, rfl, rfl⟩

/-- C10: `go_to_next_page` is total at its boundary: its codomain is
`Bool` (the `except TimeoutException` and `except Exception` handlers
catch every exception kind), and whenever the body fails with ANY
exception — absent element, timeout, stale reference, or any other —
the caller sees `false`, never a propagated exception. -/
theorem go_to_next_page_never_raises (env : NextPageEnv) (e : Exc)
    (h : goBody env = Except.error e) :
    go_to_next_page env = false := by
  simp [go_to_next_page, h]

/-- An environment whose click raises a stale-element error. -/
def exStaleClickEnv : NextPageEnv :=
  ⟨Except.ok (some "AAPL Apple"), Except.ok (), Except.ok (some "next-btn"),
    Except.error Exc.stale, true⟩

/-- Witness for C10: a stale-element failure during the click yields
`false`. -/
theorem go_to_next_page_never_raises_witness :
    goBody exStaleClickEnv = Except.error Exc.stale ∧
      go_to_next_page exStaleClickEnv = false :=
  ⟨rfl, go_to_next_page_never_raises exStaleClickEnv Exc.stale rfl⟩

/-- One progress event of `run` (main.py line 249): the yielded tuple
`(page_num, len(all_data), all_data)`, with `rowsSoFar` taken as the
VALUE of the accumulator at the moment of the yield. -/
structure RunProgress where
  pageNumber : Nat
  cumulativeRowCount : Nat
  rowsSoFar : List RawRow
deriving DecidableEq, Repr

/-- One round of `run`'s loop as the environment resolves it: the list
returned by `scrape_current_page` on this page (any list — on an
internal non-stale exception the source returns the partial `data`), and
the boolean returned by `go_to_next_page`. -/
structure PageStep where
  scraped : List RawRow
  hasNext : Bool
deriving DecidableEq, Repr

/-- Environment of one `run` invocation: whether
`navigate_to_most_active` succeeds (it raises on any step failure), and
the finite observed sequence of loop rounds.  The loop stops at the
first round whose `hasNext` is false, or when the observation ends. -/
structure RunEnv where
  navOk : Bool
  steps : List PageStep
deriving DecidableEq, Repr

/-- The `while True` loop of `run` (main.py lines 242-254): extend the
accumulator with the page's rows, yield a progress event, stop when
`go_to_next_page` returns false, else increment the page counter. -/
def runLoop : List PageStep → Nat → List RawRow → List RunProgress
  | [], _, _ => []
  | s :: rest, p, acc =>
    let acc2 := acc ++ s.scraped
    ⟨p, acc2.length, acc2⟩ :: (if s.hasNext then runLoop rest (p + 1) acc2 else [])

/-- The progress events emitted by `run`: none when navigation raises
(the `except` swallows the fault and only `finally` runs), else the loop
starting at page 1 with an empty accumulator. -/
def runEvents (env : RunEnv) : List RunProgress :=
  if env.navOk then runLoop env.steps 1 [] else []

/-- The operations `run` performs, in order, for the operation trace. -/
inductive RunOp where
  | navigateOp : RunOp
  | scrapeOp : RunOp
  | yieldOp : RunOp
  | nextOp : RunOp
  | closeOp : RunOp
deriving DecidableEq, Repr

/-- Operation trace of the loop: each round scrapes, yields, then asks
for the next page. -/
def loopOps : List PageStep → List RunOp
  | [] => []
  | s :: rest =>
    RunOp.scrapeOp :: RunOp.yieldOp :: RunOp.nextOp ::
      (if s.hasNext then loopOps rest else [])

/-- Operation trace of one `run`: `navigate_to_most_active` first; on its
failure the `except` block swallows the fault and the loop never runs;
the `finally` block invokes `close()` on every exit path, last. -/
def runOps (env : RunEnv) : List RunOp :=
  (RunOp.navigateOp :: (if env.navOk then loopOps env.steps else [])) ++ [RunOp.closeOp]

/-- The state of the Selenium driver owned by a `YahooFinanceScraper`.
`sessionOpen` is whether the browser session is still alive. -/
structure DriverState where
  sessionOpen : Bool
deriving DecidableEq, Repr

/-- `driver.quit()`.  Selenium's ChromiumDriver.quit wraps the remote
quit command in try/except-pass and stops the service, so it never
raises, also on an already-quit session; it leaves the session closed.
External collaborator, modelled from Selenium's Chrome semantics. -/
def DriverState.quit (_d : DriverState) : DriverState :=
  ⟨false⟩

/-- The scraper state visible to `close()`: `self.driver` (set once in
`__init__`, never reassigned, so `None` only models a hypothetical
uninitialised scraper) and the data snapshots already returned to the
caller, which `close()` never touches. -/
structure ScraperState where
  driver : Option DriverState
  returnedData : List RunProgress
deriving DecidableEq, Repr

/-- `close()` (main.py lines 225-229): `if self.driver: self.driver.quit()`.
Total — `quit` never raises. -/
def ScraperState.close (s : ScraperState) : ScraperState :=
  match s.driver with
  | none => s
  | some d => { s with driver := some d.quit }

/-- The whole of `run` (main.py lines 231-263): the `try` body emits the
progress events and never touches the session; `except` swallows any
fault; `finally` calls `close()` exactly once.  Returns the events, the
operation trace, and the scraper state after the `finally`. -/
def runScraper (env : RunEnv) (s : ScraperState) :
    List RunProgress × List RunOp × ScraperState :=
  (runEvents env, runOps env, s.close)

/-- Default event used with `List.getD`. -/
def dEv : RunProgress := ⟨0, 0, []⟩

lemma runLoop_pageNumber (steps : List PageStep) :
    ∀ (p : Nat) (acc : List RawRow) (i : Nat), i < (runLoop steps p acc).length →
      ((runLoop steps p acc).getD i dEv).pageNumber = p + i := by
  induction steps with
  | nil => intro p acc i h; simp [runLoop] at h
  | cons s rest ih =>
    intro p acc i h
    cases i with
    | zero => simp [runLoop]
    | succ j =>
      cases hn : s.hasNext with
      | false =>
        exfalso
        simp [runLoop, hn] at h
      | true =>
        have h2 : j < (runLoop rest (p + 1) (acc ++ s.scraped)).length := by
          simp [runLoop, hn] at h
          omega
        have hj := ih (p + 1) (acc ++ s.scraped) j h2
        have hstep : (runLoop (s :: rest) p acc).getD (j + 1) dEv
            = (runLoop rest (p + 1) (acc ++ s.scraped)).getD j dEv := by
          simp [runLoop, hn]
        rw [hstep, hj]
        omega

lemma runLoop_head_count (steps : List PageStep) (p : Nat) (acc : List RawRow)
    (h : 0 < (runLoop steps p acc).length) :
    acc.length ≤ ((runLoop steps p acc).getD 0 dEv).cumulativeRowCount := by
  cases steps with
  | nil => simp [runLoop] at h
  | cons s rest => simp [runLoop]

lemma runLoop_count_mono (steps : List PageStep) :
    ∀ (p : Nat) (acc : List RawRow) (i : Nat), i + 1 < (runLoop steps p acc).length →
      ((runLoop steps p acc).getD i dEv).cumulativeRowCount ≤
        ((runLoop steps p acc).getD (i + 1) dEv).cumulativeRowCount := by
  induction steps with
  | nil => intro p acc i h; simp [runLoop] at h
  | cons s rest ih =>
    intro p acc i h
    cases hn : s.hasNext with
    | false =>
      exfalso
      simp [runLoop, hn] at h
    | true =>
      cases i with
      | zero =>
        have hlen : 0 < (runLoop rest (p + 1) (acc ++ s.scraped)).length := by
          simp [runLoop, hn] at h
          omega
        have hh := runLoop_head_count rest (p + 1) (acc ++ s.scraped) hlen
        have hstep1 : (runLoop (s :: rest) p acc).getD 1 dEv
            = (runLoop rest (p + 1) (acc ++ s.scraped)).getD 0 dEv := by
          simp [runLoop, hn]
        have hstep0 : ((runLoop (s :: rest) p acc).getD 0 dEv).cumulativeRowCount
            = (acc ++ s.scraped).length := by
          simp [runLoop, hn]
        rw [hstep0, hstep1]
        exact hh
      | succ j =>
        have h2 : j + 1 < (runLoop rest (p + 1) (acc ++ s.scraped)).length := by
          simp [runLoop, hn] at h
          omega
        have := ih (p + 1) (acc ++ s.scraped) j h2
        simpa [runLoop, hn] using this

/-- C5: over every run, the first emitted event has pageNumber 1, each
subsequent event's pageNumber is the previous one plus 1 (one event per
successful advance), and cumulativeRowCount never decreases between
consecutive events. -/
theorem run_progress_pages_and_counts (env : RunEnv) :
    (0 < (runEvents env).length → ((runEvents env).getD 0 dEv).pageNumber = 1) ∧
      (∀ i : Nat, i + 1 < (runEvents env).length →
        ((runEvents env).getD (i + 1) dEv).pageNumber =
            ((runEvents env).getD i dEv).pageNumber + 1 ∧
          ((runEvents env).getD i dEv).cumulativeRowCount ≤
            ((runEvents env).getD (i + 1) dEv).cumulativeRowCount) := by
  cases hnav : env.navOk with
  | false =>
    constructor
    · intro h
      simp [runEvents, hnav] at h
    · intro i h
      simp [runEvents, hnav] at h
  | true =>
    have hEv : runEvents env = runLoop env.steps 1 [] := by
      simp [runEvents, hnav]
    constructor
    · intro h
      have h0 : 0 < (runLoop env.steps 1 []).length := by
        rw [hEv] at h
        exact h
      have := runLoop_pageNumber env.steps 1 [] 0 h0
      rw [hEv]
      omega
    · intro i h
      have h1 : i + 1 < (runLoop env.steps 1 []).length := by
        rw [hEv] at h
        exact h
      constructor
      · have hi := runLoop_pageNumber env.steps 1 [] i (by omega)
        have hi1 := runLoop_pageNumber env.steps 1 [] (i + 1) h1
        rw [hEv, hi, hi1]
        omega
      · have := runLoop_count_mono env.steps 1 [] i h1
        rw [hEv]
        exact this

/-- A concrete scraped row for the run witnesses. -/
def exR1 : RawRow :=
  ⟨"AAPL", "Apple Inc.", "255.45", "+1.02", "45.3M", "3.78T", "39.1"⟩

/-- A second concrete scraped row for the run witnesses. -/
def exR2 : RawRow :=
  ⟨"MSFT", "Microsoft Corporation", "517.33", "-0.52", "21.1M", "3.84T", "37.8"⟩

/-- A concrete two-page run: page 1 yields `exR1` and advances, page 2
yields `exR2` and is the last page. -/
def exSteps : List PageStep :=
  [⟨[exR1], true⟩, ⟨[exR2], false⟩]

/-- A concrete run environment with successful navigation. -/
def exRunEnv : RunEnv :=
  ⟨true, exSteps⟩

/-- Witness for C5 at the concrete two-page run. -/
theorem run_progress_pages_and_counts_witness :
    ((runEvents exRunEnv).getD 0 dEv).pageNumber = 1 ∧
      ((runEvents exRunEnv).getD 1 dEv).pageNumber =
        ((runEvents exRunEnv).getD 0 dEv).pageNumber + 1 ∧
      ((runEvents exRunEnv).getD 0 dEv).cumulativeRowCount ≤
        ((runEvents exRunEnv).getD 1 dEv).cumulativeRowCount :=
  ⟨(run_progress_pages_and_counts exRunEnv).1 (by decide),
    ((run_progress_pages_and_counts exRunEnv).2 0 (by decide)).1,
    ((run_progress_pages_and_counts exRunEnv).2 0 (by decide)).2⟩

lemma runLoop_count_eq_rows (steps : List PageStep) :
    ∀ (p : Nat) (acc : List RawRow) (e : RunProgress), e ∈ runLoop steps p acc →
      e.cumulativeRowCount = e.rowsSoFar.length := by
  induction steps with
  | nil => intro p acc e he; simp [runLoop] at he
  | cons s rest ih =>
    intro p acc e he
    cases hn : s.hasNext with
    | true =>
      simp [runLoop, hn] at he
      rcases he with he | he
      · subst he; simp
      · exact ih (p + 1) (acc ++ s.scraped) e he
    | false =>
      simp [runLoop, hn] at he
      subst he; simp

/-- C9: in every emitted RunProgress event, cumulativeRowCount equals
the length of the rowsSoFar sequence carried in the same event (the
yield is `(page_num, len(all_data), all_data)` with both taken from the
accumulator at the same moment). -/
theorem run_progress_count_matches_rows (env : RunEnv) (e : RunProgress)
    (he : e ∈ runEvents env) : e.cumulativeRowCount = e.rowsSoFar.length := by
  cases hnav : env.navOk with
  | false =>
    exfalso
    simp [runEvents, hnav] at he
  | true =>
    have h2 : e ∈ runLoop env.steps 1 [] := by
      simpa [runEvents, hnav] using he
    exact runLoop_count_eq_rows env.steps 1 [] e h2

/-- Witness for C9 at the concrete two-page run. -/
theorem run_progress_count_matches_rows_witness :
    (⟨1, 1, [exR1]⟩ : RunProgress) ∈ runEvents exRunEnv ∧
      (⟨1, 1, [exR1]⟩ : RunProgress).cumulativeRowCount =
        (⟨1, 1, [exR1]⟩ : RunProgress).rowsSoFar.length :=
  ⟨by decide, run_progress_count_matches_rows exRunEnv ⟨1, 1, [exR1]⟩ (by decide)⟩

/-- C7: `close()` is idempotent: a second call changes nothing (Selenium's
chromium `quit` never raises, so neither call raises — both are total
functions here), and data already returned to the caller is untouched. -/
theorem close_idempotent (s : ScraperState) :
    s.close.close = s.close ∧ s.close.close.returnedData = s.returnedData := by
  cases hd : s.driver with
  | none => simp [ScraperState.close, hd]
  | some d => simp [ScraperState.close, hd, DriverState.quit]

lemma loopOps_count_close (steps : List PageStep) :
    (loopOps steps).count RunOp.closeOp = 0 := by
  induction steps with
  | nil => rfl
  | cons s rest ih =>
    cases hn : s.hasNext with
    | true => simp [loopOps, hn, ih, List.count_cons]
    | false => simp [loopOps, hn, List.count_cons]

/-- C8: whatever terminal outcome a run reaches (navigation fault,
exhaustion, or the observation ending), the operation trace contains
exactly one `close`, it is the last operation, and the session is closed
after `runScraper` whenever a driver was present. -/
theorem run_closes_session_exactly_once (env : RunEnv) (s : ScraperState)
    (d : DriverState) (hd : s.driver = some d) :
    (runOps env).count RunOp.closeOp = 1 ∧
      (runOps env).getLast? = some RunOp.closeOp ∧
      ((runScraper env s).2.2).driver = some ⟨false⟩ := by
  refine ⟨?_, ?_, ?_⟩
  · cases hnav : env.navOk with
    | false => simp [runOps, hnav, List.count_cons]
    | true =>
      simp [runOps, hnav, List.count_append, List.count_cons,
        loopOps_count_close env.steps]
  · rw [runOps, List.getLast?_append_cons]
    rfl
  · simp [runScraper, ScraperState.close, hd, DriverState.quit]

/-- Witness for C8 at the concrete run with an open driver. -/
theorem run_closes_session_exactly_once_witness :
    (runOps exRunEnv).count RunOp.closeOp = 1 ∧
      (runOps exRunEnv).getLast? = some RunOp.closeOp ∧
      ((runScraper exRunEnv ⟨some ⟨true⟩, []⟩).2.2).driver = some ⟨false⟩ :=
  run_closes_session_exactly_once exRunEnv ⟨some ⟨true⟩, []⟩ ⟨true⟩ rfl

/-- A tiny Python heap for one run: list objects addressed by index.  The
run allocates exactly one list object, the accumulator `all_data`, at
address 0. -/
def ScrapeHeap : Type := List (List RawRow)

/-- Dereference the list object at address `a`. -/
def ScrapeHeap.read (h : ScrapeHeap) (a : Nat) : List RawRow :=
  List.getD h a []

/-- `obj.extend(xs)` for the list object at address `a`: in-place
mutation — the object keeps its address, its content grows. -/
def ScrapeHeap.extendAt (h : ScrapeHeap) (a : Nat) (xs : List RawRow) : ScrapeHeap :=
  List.set h a (ScrapeHeap.read h a ++ xs)

/-- A yielded progress tuple at the heap level: `yield page_num,
len(all_data), all_data` hands out the accumulator OBJECT, i.e. its
address, not a copy of its content. -/
structure EventRef where
  pageNumber : Nat
  cumulativeRowCount : Nat
  rowsAddr : Nat
deriving DecidableEq, Repr

/-- The `run` loop at the heap level: `all_data` lives at address 0;
each round mutates it in place via `extend` and yields an `EventRef`
aliasing address 0.  For each yield we also record the heap at the
moment of emission. -/
def runLoopHeap : List PageStep → Nat → ScrapeHeap → List (EventRef × ScrapeHeap) × ScrapeHeap
  | [], _, h => ([], h)
  | s :: rest, p, h =>
    let h2 := ScrapeHeap.extendAt h 0 s.scraped
    let ev : EventRef := ⟨p, (ScrapeHeap.read h2 0).length, 0⟩
    if s.hasNext then
      let res := runLoopHeap rest (p + 1) h2
      ((ev, h2) :: res.1, res.2)
    else ([(ev, h2)], h2)

/-- A full run at the heap level with navigation succeeding: the emitted
events paired with their emission-time heaps, and the final heap. -/
def runHeap (steps : List PageStep) : List (EventRef × ScrapeHeap) × ScrapeHeap :=
  runLoopHeap steps 1 [[]]

/-- Default event-heap pair for `List.getD`. -/
def dEvH : EventRef × ScrapeHeap := (⟨0, 0, 0⟩, ([] : List (List RawRow)))

/-- C6 (code_bug evidence): in the concrete two-page run, the page-1
event aliases the accumulator object.  Read through the event's own
address, its rowsSoFar is `[exR1]` at emission time but `[exR1, exR2]`
once page 2 has been extracted — a later operation of the run changed an
already-emitted event's rows, so emitted events are not immutable
values. -/
theorem run_event_rows_mutated_after_emission :
    ScrapeHeap.read ((runHeap exSteps).1.getD 0 dEvH).2
        ((runHeap exSteps).1.getD 0 dEvH).1.rowsAddr = [exR1] ∧
      ScrapeHeap.read (runHeap exSteps).2
        ((runHeap exSteps).1.getD 0 dEvH).1.rowsAddr = [exR1, exR2] ∧
      ([exR1] : List RawRow) ≠ [exR1, exR2] :=
  ⟨by decide, by decide, by decide⟩
